import Mathlib

/-!
Verification of the probability-to-odds conversion and fee-adjustment engine,
and of the ticket-data validation pipeline, of a browser content script for a
trading site.  JavaScript numbers are modelled as exact rationals (`ℚ`);
`Math.round` is modelled as rounding half toward positive infinity, which is
its JavaScript semantics; fallible functions return `Option`.
-/

namespace Kalshi

/-- JavaScript `Math.round`: nearest integer, halves toward +∞. -/
def jsRound (x : ℚ) : ℤ := ⌊x + 1/2⌋

/-- JavaScript `Math.ceil` on a rational. -/
def jsCeil (x : ℚ) : ℤ := ⌈x⌉

/-- Model of `probabilityToAmericanOdds` (content.js): converts an implied
probability to integer American odds; `none` models the `null` return on an
out-of-range probability. -/
def probabilityToAmericanOdds (p : ℚ) : Option ℤ :=
  if p ≤ 0 ∨ 1 ≤ p then
    none
  else if |p - 1/2| < 1/1000 then
    some (jsRound 100)
  else if p < 1/2 then
    some (jsRound (100 * (1 - p) / p))
  else
    some (jsRound (-100 * p / (1 - p)))

/-- Model of `americanOddsToProbability` (content.js): `none` models the `null`
return on zero odds (NaN/∞ do not arise in the rational model). -/
def americanOddsToProbability (americanOdds : ℚ) : Option ℚ :=
  if americanOdds = 0 then
    none
  else if 0 < americanOdds then
    some (100 / (americanOdds + 100))
  else
    some (|americanOdds| / (|americanOdds| + 100))

/-- The round trip `probabilityToAmericanOdds ∘ americanOddsToProbability`. -/
def roundTripOdds (o : ℚ) : Option ℤ :=
  (americanOddsToProbability o).bind probabilityToAmericanOdds

/-- Model of `validateCalculatedRisk` (content.js), reduced to its boolean verdict. -/
def validateCalculatedRisk (price feePerContract calculatedRisk : ℚ) : Bool :=
  if |calculatedRisk - (price + feePerContract)| > 1/10000 then false
  else if calculatedRisk ≤ 0 ∨ 1 ≤ calculatedRisk then false
  else true

/-- Model of `validateCalculatedProfit` (content.js), reduced to its boolean verdict. -/
def validateCalculatedProfit (calculatedRisk calculatedProfit : ℚ) : Bool :=
  if |calculatedProfit - (1 - calculatedRisk)| > 1/10000 then false
  else if calculatedProfit ≤ 0 then false
  else true

/-- Model of `validateAfterFeeOdds` (content.js), reduced to its boolean verdict. -/
def validateAfterFeeOdds (calculatedRisk calculatedProfit : ℚ) (afterFeeOdds : ℤ) : Bool :=
  let expectedOdds : ℚ :=
    if calculatedRisk ≤ calculatedProfit then 100 * (calculatedProfit / calculatedRisk)
    else -100 * (calculatedRisk / calculatedProfit)
  if |(afterFeeOdds : ℚ) - expectedOdds| > 3/2 then false
  else if 10000 < |afterFeeOdds| then false
  else true

/-- The `options` argument of `calculateAfterFeeOdds`;
`enableValidation` defaults to `true` as in the source. -/
structure AfterFeeOptions where
  enableValidation : Bool := true

/-- Model of `calculateAfterFeeOdds` (content.js): risk = price + fee, profit = 1 − risk,
gate on unprofitable orders, convert the profit/risk ratio to American odds.
The `validateMathematicalConsistency` call is log-only in the source and is
omitted since it never affects the returned value. -/
def calculateAfterFeeOdds (price feePerContract : ℚ)
    (opts : AfterFeeOptions := {}) : Option ℤ :=
  if price ≤ 0 ∨ 1 < price then none
  else if feePerContract < 0 then none
  else
    let calculatedRisk := price + feePerContract
    let calculatedProfit := 1 - calculatedRisk
    let gateOk : Bool :=
      if opts.enableValidation then
        validateCalculatedRisk price feePerContract calculatedRisk &&
          validateCalculatedProfit calculatedRisk calculatedProfit
      else
        decide (calculatedRisk < 1) && decide (0 < calculatedProfit)
    if gateOk then
      let rawOdds : ℚ :=
        if calculatedRisk ≤ calculatedProfit then 100 * (calculatedProfit / calculatedRisk)
        else -100 * (calculatedRisk / calculatedProfit)
      let finalOdds := jsRound rawOdds
      if opts.enableValidation &&
          !(validateAfterFeeOdds calculatedRisk calculatedProfit finalOdds) then none
      else some finalOdds
    else none

/-- The fee tier of `calculateKalshiFeeEstimate` (`'taker'` / `'maker'`). -/
inductive FeeType where
  | taker
  | maker
deriving DecidableEq

/-- The `options` argument of `calculateKalshiFeeEstimate`, with the source's
defaults. -/
structure KalshiFeeOptions where
  feeType : FeeType := .taker
  assumeMakerFeeFree : Bool := false

/-- The record returned by `calculateKalshiFeeEstimate` (display-only string
fields omitted). -/
structure FeeEstimate where
  totalFee : ℚ
  perContractFee : ℚ
  feeType : FeeType
  priceUsed : ℚ
  quantityUsed : ℚ
deriving DecidableEq

/-- The `feeRates` table of `calculateKalshiFeeEstimate` (content.js):
7% for taker, 1.75% for maker. -/
def feeRates : FeeType → ℚ
  | .taker => 7/100
  | .maker => 175/10000

/-- Model of `calculateKalshiFeeEstimate` (content.js): the published fee schedule
`feeRate × price × (1−price)` per contract, totalled, rounded up to the
nearest cent, then divided back by the quantity.  `none` models the `null`
return on invalid inputs (`Number.isInteger q` is `q.den = 1` on ℚ). -/
def calculateKalshiFeeEstimate (price quantity : ℚ)
    (opts : KalshiFeeOptions := {}) : Option FeeEstimate :=
  if price ≤ 0 ∨ 1 < price then none
  else if quantity ≤ 0 ∨ quantity.den ≠ 1 then none
  else if opts.feeType = .maker ∧ opts.assumeMakerFeeFree then
    some { totalFee := 0, perContractFee := 0, feeType := .maker,
           priceUsed := price, quantityUsed := quantity }
  else
    let feeRate := feeRates opts.feeType
    let baseFeePerContract := feeRate * price * (1 - price)
    let totalBaseFee := baseFeePerContract * quantity
    let roundedTotalFee := (jsCeil (totalBaseFee * 100) : ℚ) / 100
    let actualPerContractFee := roundedTotalFee / quantity
    some { totalFee := roundedTotalFee, perContractFee := actualPerContractFee,
           feeType := opts.feeType, priceUsed := price, quantityUsed := quantity }

/-- Model of `sanitizeNumericValue` (content.js), numeric-input path with the options
used by the validators: reject disallowed negative/zero values, then round to
`maxDecimalPlaces` decimal places (`Math.round(v·10^d)/10^d`). -/
def sanitizeNumericValue (value : ℚ) (allowNegative allowZero : Bool)
    (maxDecimalPlaces : ℕ) : Option ℚ :=
  if allowNegative = false ∧ value < 0 then none
  else if allowZero = false ∧ value = 0 then none
  else some ((jsRound (value * 10 ^ maxDecimalPlaces) : ℚ) / 10 ^ maxDecimalPlaces)

/-- Model of `isValidPrice` (content.js) with its default options
(min 0.01, max 1.00, exact zero disallowed, exact one allowed). -/
def isValidPrice (price : ℚ) : Bool :=
  (sanitizeNumericValue price false false 4).elim false fun s =>
    if s < 1/100 then false
    else if 1 < s then false
    else if s = 0 then false
    else if (s * 10 ^ 4).den ≠ 1 then false
    else true

/-- Model of `isValidQuantity` (content.js) with its default options
(min 1, max 10000, integer required; sanitization rounds to 0 decimals). -/
def isValidQuantity (quantity : ℚ) : Bool :=
  (sanitizeNumericValue quantity false false 0).elim false fun s =>
    if s.den ≠ 1 then false
    else if s < 1 then false
    else if 10000 < s then false
    else if (2 ^ 53 - 1 : ℚ) < s then false
    else true

/-- Model of `isValidFee` (content.js) with its default options
(min 0, max 1000, zero allowed, ≤ 4 decimal places). -/
def isValidFee (fee : ℚ) : Bool :=
  (sanitizeNumericValue fee false true 4).elim false fun s =>
    if s < 0 then false
    else if 1000 < s then false
    else if (s * 10 ^ 4).den ≠ 1 then false
    else true

/-- The fee sub-record of a parsed ticket (`FeeInfo`); `rawText` omitted. -/
structure FeeInfo where
  totalFee : Option ℚ := none
  perContractFee : Option ℚ := none
  feeSource : String := "ticket"
deriving DecidableEq

/-- A parsed ticket record as fed to `validateTicketData`; `none` models a
field the parsers did not find (`null`/missing/empty). -/
structure TicketData where
  side : Option String := none
  price : Option ℚ := none
  quantity : Option ℚ := none
  fee : Option FeeInfo := none
deriving DecidableEq

/-- Tags for the human-readable messages `validateTicketData` pushes into
`ticketData.errors`, one per push site, in source order. -/
inductive VErr where
  | sideNotFound | invalidSide
  | priceNotFound | priceTooLow | priceTooHigh | priceInvalidFormat
  | quantityNotFound | quantityNotInteger | quantityTooLow | quantityTooHigh
  | quantityInvalid
  | feeNegativeTotal | feeTotalTooHigh | feeInvalidTotal
  | feeNegativePerContract | feePerContractTooHigh | feeInvalidPerContract
  | feeInconsistency
  | feeNotFound
  | orderTotalVeryHigh
deriving DecidableEq

/-- The `validationSummary` record. -/
structure ValidationSummary where
  criticalErrors : ℕ
  warningCount : ℕ
  totalErrors : ℕ
  hasCriticalData : Bool
  canProceed : Bool
deriving DecidableEq

/-- The ticket record after `validateTicketData` has populated `errors`,
`isValid` and `validationSummary`. -/
structure ValidatedTicket where
  data : TicketData
  errors : List VErr
  isValid : Bool
  validationSummary : ValidationSummary
deriving DecidableEq

/-- Model of `validateTicketData` (content.js): per-field critical checks for side,
price, quantity; warning-level fee checks including the
total ≈ perContract × quantity consistency check; the order-total sanity
check; then `isValid`, `hasCriticalData` and `canProceed`. -/
def validateTicketData (t : TicketData) : ValidatedTicket :=
  let sideRes : List VErr × ℕ :=
    match t.side with
    | none => ([.sideNotFound], 1)
    | some s => if s = "YES" ∨ s = "NO" then ([], 0) else ([.invalidSide], 1)
  let priceRes : List VErr × ℕ :=
    match t.price with
    | none => ([.priceNotFound], 1)
    | some p =>
      if isValidPrice p then ([], 0)
      else if p < 1/100 then ([.priceTooLow], 1)
      else if 1 < p then ([.priceTooHigh], 1)
      else ([.priceInvalidFormat], 1)
  let quantityRes : List VErr × ℕ :=
    match t.quantity with
    | none => ([.quantityNotFound], 1)
    | some q =>
      if isValidQuantity q then ([], 0)
      else if q.den ≠ 1 then ([.quantityNotInteger], 1)
      else if q < 1 then ([.quantityTooLow], 1)
      else if 10000 < q then ([.quantityTooHigh], 1)
      else ([.quantityInvalid], 1)
  let feeRes : List VErr × ℕ :=
    match t.fee with
    | none => ([.feeNotFound], 1)
    | some f =>
      let totalErrs : List VErr :=
        match f.totalFee with
        | none => []
        | some tf =>
          if isValidFee tf then []
          else if tf < 0 then [.feeNegativeTotal]
          else if 1000 < tf then [.feeTotalTooHigh]
          else [.feeInvalidTotal]
      let perErrs : List VErr :=
        match f.perContractFee with
        | none => []
        | some pf =>
          if isValidFee pf then []
          else if pf < 0 then [.feeNegativePerContract]
          else if 100 < pf then [.feePerContractTooHigh]
          else [.feeInvalidPerContract]
      let consRes : List VErr × ℕ :=
        match f.totalFee, f.perContractFee, t.quantity with
        | some tf, some pf, some q =>
          if |tf - pf * q| > 1/100 then ([.feeInconsistency], 1) else ([], 0)
        | _, _, _ => ([], 0)
      let feeErrors := totalErrs ++ perErrs ++ consRes.1
      (feeErrors, consRes.2 + feeErrors.length)
  let crossRes : List VErr × ℕ :=
    match t.price, t.quantity with
    | some p, some q =>
      if 100000 < p * q then ([.orderTotalVeryHigh], 1) else ([], 0)
    | _, _ => ([], 0)
  let criticalErrors := sideRes.2 + priceRes.2 + quantityRes.2
  let warningCount := feeRes.2 + crossRes.2
  let errors := sideRes.1 ++ priceRes.1 ++ quantityRes.1 ++ feeRes.1 ++ crossRes.1
  let hasCriticalData := t.side.isSome && t.price.isSome && t.quantity.isSome
  let isValid := hasCriticalData && criticalErrors == 0
  { data := t
    errors := errors
    isValid := isValid
    validationSummary :=
      { criticalErrors := criticalErrors
        warningCount := warningCount
        totalErrors := errors.length
        hasCriticalData := hasCriticalData
        canProceed := isValid || (hasCriticalData && criticalErrors == 0) } }

/-- The `finalOdds` computation of `calculateAfterFeeOdds` (content.js):
`Math.round` of `±100` times the profit/risk ratio. -/
def afterFeeRawRound (price feePerContract : ℚ) : ℤ :=
  let calculatedRisk := price + feePerContract
  let calculatedProfit := 1 - calculatedRisk
  jsRound (if calculatedRisk ≤ calculatedProfit then 100 * (calculatedProfit / calculatedRisk)
           else -100 * (calculatedRisk / calculatedProfit))

/-- A numeric input element as seen by `parseQuantityFallback3`: its
`placeholder` and `defaultValue` attributes ("" models a missing value). -/
structure QtyInput where
  placeholder : String := ""
  defaultValue : String := ""

/-- The ticket subtree as seen by the quantity default fallback: its input
elements in document order. -/
structure QtyTicketEl where
  inputs : List QtyInput

/-- First maximal digit run of a character list — the regex `(\d+)` match
used on placeholders. -/
def firstDigitRun : List Char → Option (List Char)
  | [] => none
  | c :: rest =>
    if c.isDigit then some (c :: rest.takeWhile Char.isDigit)
    else firstDigitRun rest

/-- Numeric value of a digit run. -/
def digitsToNat (ds : List Char) : ℕ :=
  ds.foldl (fun n c => 10 * n + (c.toNat - 48)) 0

/-- JavaScript `parseInt` on a string: optional sign, then the leading digit
run; `none` models NaN when no digits lead the (trimmed) string. -/
def jsParseInt (s : String) : Option ℤ :=
  match s.trim.data with
  | '-' :: rest =>
    let ds := rest.takeWhile Char.isDigit
    if ds.isEmpty then none else some (-(digitsToNat ds : ℤ))
  | '+' :: rest =>
    let ds := rest.takeWhile Char.isDigit
    if ds.isEmpty then none else some ((digitsToNat ds : ℤ))
  | cs =>
    let ds := cs.takeWhile Char.isDigit
    if ds.isEmpty then none else some ((digitsToNat ds : ℤ))

/-- The input loop of `parseQuantityFallback3` (content.js): per input, try a
valid quantity from the placeholder's first digit run, then from
`parseInt(defaultValue)`; after the loop, return the default quantity 1
unconditionally. -/
def parseQuantityFallback3Loop : List QtyInput → Option ℚ
  | [] => some 1
  | input :: rest =>
    match (if input.placeholder ≠ "" then
             match firstDigitRun input.placeholder.data with
             | some ds =>
               if isValidQuantity (digitsToNat ds : ℚ) then some ((digitsToNat ds : ℚ))
               else none
             | none => none
           else none) with
    | some q => some q
    | none =>
      match (if input.defaultValue ≠ "" then
               match jsParseInt input.defaultValue with
               | some n => if isValidQuantity (n : ℚ) then some ((n : ℚ)) else none
               | none => none
             else none) with
      | some q => some q
      | none => parseQuantityFallback3Loop rest

/-- Model of `parseQuantityFallback3` (content.js), the final fallback of
`parseQuantityWithFallback`. -/
def parseQuantityFallback3 (ticketElement : QtyTicketEl) : Option ℚ :=
  parseQuantityFallback3Loop ticketElement.inputs

/-- Recovery strategy 4 of `attemptAdvancedRecovery` (content.js): default
the quantity to 1 only when it is missing while side and price are present. -/
def recoveryDefaultQuantity (side : Option String) (price quantity : Option ℚ) : Option ℚ :=
  if quantity.isNone ∧ side.isSome ∧ price.isSome then some 1 else quantity

/-- Wrap an integer to a signed 32-bit value — the `hash & hash` step. -/
def toInt32 (x : ℤ) : ℤ := (x + 2 ^ 31) % 2 ^ 32 - 2 ^ 31

/-- One step of the `generateTicketHash` loop:
`hash = ((hash << 5) - hash) + charCode`, wrapped to 32 bits. -/
def hashStep (h : ℤ) (c : Char) : ℤ := toInt32 (toInt32 (h * 32) - h + c.toNat)

/-- The simple string checksum of `generateTicketHash` (content.js). -/
def hashString (s : String) : ℤ := s.data.foldl hashStep 0

/-- An input, select or textarea as seen by `generateTicketHash`. -/
structure DomControl where
  type : String := ""
  name : String := ""
  id : String := ""
  value : String := ""
deriving DecidableEq

/-- A button element as seen by `generateTicketHash`. -/
structure DomButton where
  classAttr : String := ""
  ariaPressed : String := ""
  text : String := ""
deriving DecidableEq

/-- The ticket subtree as seen by `generateTicketHash`: its form controls
(`input, select, textarea`) and buttons in document order, and its text
content. -/
structure TicketEl where
  controls : List DomControl
  buttons : List DomButton
  textContent : String
deriving DecidableEq

/-- A control contributes to the hash unless its `type` is `hidden`. -/
def isHashedControl (c : DomControl) : Bool := c.type != "hidden"

/-- The `input.name || input.id` key used in the hash. -/
def controlKey (c : DomControl) : String := if c.name ≠ "" then c.name else c.id

/-- Bool test for `p` occurring as a leading segment of `l`. -/
def listStartsWith : List Char → List Char → Bool
  | [], _ => true
  | _ :: _, [] => false
  | p :: ps, c :: cs => p = c && listStartsWith ps cs

/-- Bool test for `pat` occurring as a contiguous segment of `l` — the CSS
`[class*="selected"]` substring test. -/
def listContainsSeg (pat : List Char) : List Char → Bool
  | [] => pat.isEmpty
  | c :: cs => listStartsWith pat (c :: cs) || listContainsSeg pat cs

/-- The selector `button[class*="selected"], button[aria-pressed="true"]`. -/
def isSelectedButton (b : DomButton) : Bool :=
  listContainsSeg "selected".data b.classAttr.data || b.ariaPressed = "true"

/-- Model of `generateTicketHash` (content.js): concatenates `name||id:value|` for
each non-hidden control, `btn:text|` for each selected button, and the first
500 characters of the trimmed text content, then applies the 32-bit
checksum.  The source returns `hash.toString()`; the integer is modelled, and
equal integers give equal strings. -/
def generateTicketHash (ticketElement : TicketEl) : ℤ :=
  let inputsPart := ticketElement.controls.foldl
    (fun acc c => if isHashedControl c then acc ++ controlKey c ++ ":" ++ c.value ++ "|" else acc) ""
  let buttonsPart := (ticketElement.buttons.filter isSelectedButton).foldl
    (fun acc b => acc ++ "btn:" ++ b.text.trim ++ "|") ""
  let textPart := (ticketElement.textContent.trim).take 500
  hashString (inputsPart ++ buttonsPart ++ textPart)

/-- The name/id-and-value pairs of the non-hidden controls: the first hash
feature. -/
def visibleControlEntries (el : TicketEl) : List (String × String) :=
  (el.controls.filter isHashedControl).map (fun c => (controlKey c, c.value))

/-- The trimmed texts of the selected buttons: the second hash feature. -/
def selectedButtonTexts (el : TicketEl) : List String :=
  (el.buttons.filter isSelectedButton).map (fun b => b.text.trim)

/-- The first 500 characters of the trimmed text content: the third hash
feature. -/
def hashTextPart (el : TicketEl) : String := (el.textContent.trim).take 500

/-- The OPEN→OPEN trigger of `processOrderTicket` (content.js): with the
ticket still open, a re-parse fires iff the current hash differs from
`ticketState.lastTicketHash`. -/
def ticketContentChanged (lastTicketHash : ℤ) (currentTicket : TicketEl) : Bool :=
  generateTicketHash currentTicket != lastTicketHash

end Kalshi

namespace Kalshi

example : probabilityToAmericanOdds (13/20) = some (-186) := by
  norm_num [probabilityToAmericanOdds, jsRound, Int.floor_eq_iff, le_abs, abs_lt]
example : probabilityToAmericanOdds (7/20) = some 186 := by
  norm_num [probabilityToAmericanOdds, jsRound, Int.floor_eq_iff, le_abs, abs_lt]
example : probabilityToAmericanOdds (1/2) = some 100 := by
  norm_num [probabilityToAmericanOdds, jsRound, Int.floor_eq_iff, le_abs, abs_lt]
example : calculateAfterFeeOdds (2/5) (3/100) = some 133 := by
  norm_num [calculateAfterFeeOdds, validateCalculatedRisk, validateCalculatedProfit,
    validateAfterFeeOdds, jsRound, Int.floor_eq_iff, abs_le, abs_sub_le_iff]
example : calculateAfterFeeOdds (49/50) (3/100) = none := by
  norm_num [calculateAfterFeeOdds, validateCalculatedRisk, validateCalculatedProfit,
    validateAfterFeeOdds, jsRound, Int.floor_eq_iff, abs_le, abs_sub_le_iff]
example : calculateAfterFeeOdds (1/200) 0 = none := by
  norm_num [calculateAfterFeeOdds, validateCalculatedRisk, validateCalculatedProfit,
    validateAfterFeeOdds, jsRound, Int.floor_eq_iff, abs_le, abs_sub_le_iff]
example : calculateAfterFeeOdds (1/200) 0 { enableValidation := false } = some 19900 := by
  norm_num [calculateAfterFeeOdds, validateCalculatedRisk, validateCalculatedProfit,
    validateAfterFeeOdds, jsRound, Int.floor_eq_iff, abs_le, abs_sub_le_iff]
example : probabilityToAmericanOdds (201/401) = some (-100) := by
  norm_num [probabilityToAmericanOdds, jsRound, Int.floor_eq_iff, abs_sub_lt_iff, le_abs, abs_lt]
example : roundTripOdds (-100) = some 100 := by
  norm_num [roundTripOdds, americanOddsToProbability, probabilityToAmericanOdds,
    jsRound, Int.floor_eq_iff, abs_sub_lt_iff, le_abs, abs_lt]
example : roundTripOdds 150 = some 150 := by
  norm_num [roundTripOdds, americanOddsToProbability, probabilityToAmericanOdds,
    jsRound, Int.floor_eq_iff, abs_sub_lt_iff, le_abs, abs_lt]
example : roundTripOdds (-150) = some (-150) := by
  norm_num [roundTripOdds, americanOddsToProbability, probabilityToAmericanOdds,
    jsRound, Int.floor_eq_iff, abs_sub_lt_iff, le_abs, abs_lt]

example :
    (calculateKalshiFeeEstimate (1/2) 10).map (fun e => (e.totalFee, e.perContractFee)) =
      some (9/50, 9/500) := by
  have h18 : (⌈(35:ℚ)/2⌉ : ℤ) = 18 := by rw [Int.ceil_eq_iff]; norm_num
  norm_num [calculateKalshiFeeEstimate, feeRates, jsCeil, h18]

example : isValidQuantity (12/5) = true := by
  norm_num [isValidQuantity, sanitizeNumericValue, jsRound, Int.floor_eq_iff]

example : isValidPrice (1/2) = true := by
  norm_num [isValidPrice, sanitizeNumericValue, jsRound, Int.floor_eq_iff]

example :
    (validateTicketData { side := some "YES", price := some (1/2), quantity := some (12/5) }).isValid
      = true := by
  norm_num [validateTicketData, isValidPrice, isValidQuantity, sanitizeNumericValue,
    jsRound, Int.floor_eq_iff]

example :
    (validateTicketData { price := some (1/2), quantity := some 5 }).isValid = false ∧
    (validateTicketData { price := some (1/2), quantity := some 5 }).validationSummary.canProceed
      = false := by
  norm_num [validateTicketData, isValidPrice, isValidQuantity, sanitizeNumericValue,
    jsRound, Int.floor_eq_iff]

example :
    VErr.feeInconsistency ∈ (validateTicketData
      { side := some "YES", price := some (1/2), quantity := some 10,
        fee := some { totalFee := some 1, perContractFee := some (1/100) } }).errors := by
  norm_num [validateTicketData, isValidPrice, isValidQuantity, isValidFee,
    sanitizeNumericValue, jsRound, Int.floor_eq_iff, le_abs, abs_lt, lt_abs]

/-! ### Helper lemmas about `jsRound` -/

lemma jsRound_intCast (n : ℤ) : jsRound (n : ℚ) = n := by
  have h : ⌊(1:ℚ)/2⌋ = 0 := by rw [Int.floor_eq_iff]; norm_num
  rw [jsRound, Int.floor_int_add, h, add_zero]

lemma jsRound_mono {x y : ℚ} (h : x ≤ y) : jsRound x ≤ jsRound y :=
  Int.floor_mono (by linarith)

lemma jsRound_abs_sub_le (x : ℚ) : |(jsRound x : ℚ) - x| ≤ 1/2 := by
  have h1 : (jsRound x : ℚ) ≤ x + 1/2 := Int.floor_le _
  have h2 : x + 1/2 < (jsRound x : ℚ) + 1 := Int.lt_floor_add_one _
  rw [abs_le]
  constructor <;> linarith

/-! ### C1: the unprofitable-order gate of `calculateAfterFeeOdds` -/

/-- C1: for every price in (0, 1.00] and fee ≥ 0 with price + fee ≥ 1.00,
`calculateAfterFeeOdds` returns no result, whether or not the optional
validation layer is enabled. -/
theorem calculateAfterFeeOdds_unprofitable_none (price feePerContract : ℚ)
    (opts : AfterFeeOptions) (hp0 : 0 < price) (hp1 : price ≤ 1)
    (hf : 0 ≤ feePerContract) (hrisk : 1 ≤ price + feePerContract) :
    calculateAfterFeeOdds price feePerContract opts = none := by
  have h1 : ¬(price ≤ 0 ∨ 1 < price) := by push_neg; exact ⟨hp0, hp1⟩
  have h2 : ¬(feePerContract < 0) := not_lt.mpr hf
  obtain ⟨ev⟩ := opts
  cases ev with
  | false =>
    simp only [calculateAfterFeeOdds, if_neg h1, if_neg h2]
    simp [not_lt.mpr hrisk]
  | true =>
    have hv : validateCalculatedRisk price feePerContract (price + feePerContract) = false := by
      unfold validateCalculatedRisk
      rw [if_neg (by simp), if_pos (Or.inr hrisk)]
    simp only [calculateAfterFeeOdds, if_neg h1, if_neg h2]
    simp [hv]

/-- C1 witness: Scenario D, price 0.98, fee 0.03 (risk 1.01), default options. -/
theorem calculateAfterFeeOdds_unprofitable_none_witness :
    calculateAfterFeeOdds (49/50) (3/100) {} = none :=
  calculateAfterFeeOdds_unprofitable_none (49/50) (3/100) {}
    (by norm_num) (by norm_num) (by norm_num) (by norm_num)

/-! ### C2: the branch formulas of `probabilityToAmericanOdds` -/

/-- C2 counterexample: at p = 201/401 (above 0.5, outside the 0.001
tolerance), the ratio 100·p/(1−p) is exactly 100.5, so the code's
`Math.round(−100·p/(1−p))` gives −100 while the claim's
`−round(100·p/(1−p))` gives −101. -/
theorem probabilityToAmericanOdds_half_cex :
    probabilityToAmericanOdds (201/401) = some (-100) ∧
    -(jsRound (100 * (201/401) / (1 - 201/401))) = (-101 : ℤ) := by
  constructor
  · norm_num [probabilityToAmericanOdds, jsRound, Int.floor_eq_iff, le_abs, abs_lt]
  · norm_num [jsRound, Int.floor_eq_iff]

/-- C2 (amended): `probabilityToAmericanOdds` returns none off (0,1), +100
within 0.001 of 0.5, `jsRound (100(1−p)/p)` below 0.5, and
`jsRound (−100·p/(1−p))` above 0.5 (round half toward +∞, applied after
negation); p = 0.65 gives −186. -/
theorem probabilityToAmericanOdds_branches (p : ℚ) :
    (p ≤ 0 ∨ 1 ≤ p → probabilityToAmericanOdds p = none) ∧
    (0 < p → p < 1 → |p - 1/2| < 1/1000 → probabilityToAmericanOdds p = some 100) ∧
    (0 < p → ¬(|p - 1/2| < 1/1000) → p < 1/2 →
      probabilityToAmericanOdds p = some (jsRound (100 * (1 - p) / p))) ∧
    (p < 1 → ¬(|p - 1/2| < 1/1000) → 1/2 < p →
      probabilityToAmericanOdds p = some (jsRound (-100 * p / (1 - p)))) ∧
    probabilityToAmericanOdds (13/20) = some (-186) := by
  have h100 : jsRound (100 : ℚ) = 100 := by exact_mod_cast jsRound_intCast 100
  refine ⟨fun h => ?_, fun h0 h1 htol => ?_, fun h0 htol hlt => ?_,
    fun h1 htol hgt => ?_, ?_⟩
  · rw [probabilityToAmericanOdds, if_pos h]
  · rw [probabilityToAmericanOdds, if_neg (by push_neg; exact ⟨h0, h1⟩), if_pos htol, h100]
  · rw [probabilityToAmericanOdds, if_neg (by push_neg; exact ⟨h0, by linarith⟩),
      if_neg htol, if_pos hlt]
  · rw [probabilityToAmericanOdds, if_neg (by push_neg; exact ⟨by linarith, h1⟩),
      if_neg htol, if_neg (not_lt.mpr (le_of_lt hgt))]
  · norm_num [probabilityToAmericanOdds, jsRound, Int.floor_eq_iff, le_abs, abs_lt]

/-- C2 witness: the below-0.5 branch applied at p = 0.3. -/
theorem probabilityToAmericanOdds_branches_witness :
    probabilityToAmericanOdds (3/10) = some (jsRound (100 * (1 - 3/10) / (3/10))) :=
  (probabilityToAmericanOdds_branches (3/10)).2.2.1
    (by norm_num) (by norm_num [le_abs, abs_lt]) (by norm_num)

/-! ### C3: `calculateAfterFeeOdds` on profitable inputs -/

/-- C3 counterexample: at price 0.005 (∈ (0,1.00]) and fee 0, risk < 1 and
the claim's formula gives +19900, but the default validation layer rejects
|odds| > 10000, so the function returns no result. -/
theorem calculateAfterFeeOdds_extreme_cex :
    calculateAfterFeeOdds (1/200) 0 {} = none ∧
    jsRound (100 * ((1 - (1/200 + 0)) / (1/200 + 0))) = 19900 := by
  constructor
  · norm_num [calculateAfterFeeOdds, validateCalculatedRisk, validateCalculatedProfit,
      validateAfterFeeOdds, jsRound, Int.floor_eq_iff, abs_le, abs_sub_le_iff]
  · norm_num [jsRound, Int.floor_eq_iff]

lemma validateAfterFeeOdds_round (risk profit : ℚ) :
    validateAfterFeeOdds risk profit
      (jsRound (if risk ≤ profit then 100 * (profit / risk) else -100 * (risk / profit))) =
    !(decide (10000 < |jsRound (if risk ≤ profit then 100 * (profit / risk)
        else -100 * (risk / profit))|)) := by
  unfold validateAfterFeeOdds
  set e : ℚ := if risk ≤ profit then 100 * (profit / risk) else -100 * (risk / profit) with he
  rw [if_neg (not_lt.mpr (le_trans (jsRound_abs_sub_le e) (by norm_num)))]
  by_cases h : (10000 : ℤ) < |jsRound e|
  · simp [h]
  · simp [h]

/-- C3 (amended): with default options, price ∈ (0,1], fee ≥ 0 and
risk = price+fee < 1, `calculateAfterFeeOdds` returns the rounded
profit/risk odds when its magnitude is at most 10000, and no result when the
validation bound |odds| > 10000 trips. -/
theorem calculateAfterFeeOdds_profitable_spec (price feePerContract : ℚ)
    (hp0 : 0 < price) (hp1 : price ≤ 1) (hf : 0 ≤ feePerContract)
    (hrisk : price + feePerContract < 1) :
    calculateAfterFeeOdds price feePerContract {} =
      if |afterFeeRawRound price feePerContract| ≤ 10000
      then some (afterFeeRawRound price feePerContract)
      else none := by
  have h1 : ¬(price ≤ 0 ∨ 1 < price) := by push_neg; exact ⟨hp0, hp1⟩
  have h2 : ¬(feePerContract < 0) := not_lt.mpr hf
  have hr0 : 0 < price + feePerContract := by linarith
  have hvr : validateCalculatedRisk price feePerContract (price + feePerContract) = true := by
    unfold validateCalculatedRisk
    rw [if_neg (by simp), if_neg (by push_neg; exact ⟨hr0, hrisk⟩)]
  have hvp : validateCalculatedProfit (price + feePerContract)
      (1 - (price + feePerContract)) = true := by
    unfold validateCalculatedProfit
    rw [if_neg (by simp), if_neg (by push_neg; linarith)]
  unfold afterFeeRawRound
  simp only [calculateAfterFeeOdds, if_neg h1, if_neg h2, hvr, hvp, Bool.and_self, if_pos,
    validateAfterFeeOdds_round, Bool.true_and, Bool.not_not]
  generalize jsRound (if price + feePerContract ≤ 1 - (price + feePerContract)
    then 100 * ((1 - (price + feePerContract)) / (price + feePerContract))
    else -100 * ((price + feePerContract) / (1 - (price + feePerContract)))) = r
  by_cases h : (10000 : ℤ) < |r|
  · simp [h, not_le.mpr h]
  · simp [h, not_lt.mp h]

/-- C3 witness: Scenario C, price 0.40 and fee 0.03 give +133. -/
theorem calculateAfterFeeOdds_profitable_spec_witness :
    calculateAfterFeeOdds (2/5) (3/100) {} = some 133 := by
  have h := calculateAfterFeeOdds_profitable_spec (2/5) (3/100)
    (by norm_num) (by norm_num) (by norm_num) (by norm_num)
  rw [h]
  norm_num [afterFeeRawRound, jsRound, Int.floor_eq_iff]

/-! ### C4: the published fee schedule -/

/-- C4: for price ∈ (0,1] and a positive integer quantity,
`calculateKalshiFeeEstimate` returns the rate·price·(1−price)·quantity total
rounded up to the cent and divided back by the quantity; out-of-range price
or a non-positive/non-integer quantity yields no estimate. -/
theorem calculateKalshiFeeEstimate_spec (price quantity : ℚ) (ft : FeeType) :
    (0 < price → price ≤ 1 → 0 < quantity → quantity.den = 1 →
      calculateKalshiFeeEstimate price quantity { feeType := ft } =
        some { totalFee := (jsCeil (feeRates ft * price * (1 - price) * quantity * 100) : ℚ) / 100
               perContractFee :=
                 ((jsCeil (feeRates ft * price * (1 - price) * quantity * 100) : ℚ) / 100) / quantity
               feeType := ft
               priceUsed := price
               quantityUsed := quantity }) ∧
    (price ≤ 0 ∨ 1 < price ∨ quantity ≤ 0 ∨ quantity.den ≠ 1 →
      calculateKalshiFeeEstimate price quantity { feeType := ft } = none) := by
  constructor
  · intro hp0 hp1 hq0 hqden
    unfold calculateKalshiFeeEstimate
    rw [if_neg (by push_neg; exact ⟨hp0, hp1⟩),
      if_neg (by push_neg; exact ⟨hq0, hqden⟩), if_neg (by simp)]
  · intro h
    unfold calculateKalshiFeeEstimate
    rcases h with h | h | h | h
    · rw [if_pos (Or.inl h)]
    · rw [if_pos (Or.inr h)]
    · by_cases hp : price ≤ 0 ∨ 1 < price
      · rw [if_pos hp]
      · rw [if_neg hp, if_pos (Or.inl h)]
    · by_cases hp : price ≤ 0 ∨ 1 < price
      · rw [if_pos hp]
      · rw [if_neg hp, if_pos (Or.inr h)]

/-- C4 witness: Scenario E, taker fee at price 0.50 and quantity 10:
total 0.18, per-contract 0.018. -/
theorem calculateKalshiFeeEstimate_spec_witness :
    calculateKalshiFeeEstimate (1/2) 10 { feeType := .taker } =
      some { totalFee := 9/50, perContractFee := 9/500, feeType := .taker,
             priceUsed := 1/2, quantityUsed := 10 } := by
  have h := (calculateKalshiFeeEstimate_spec (1/2) 10 .taker).1
    (by norm_num) (by norm_num) (by norm_num) (by simp)
  rw [h]
  have h18 : (⌈(35:ℚ)/2⌉ : ℤ) = 18 := by rw [Int.ceil_eq_iff]; norm_num
  norm_num [feeRates, jsCeil, FeeEstimate.mk.injEq, h18]

/-! ### Characterizations of the field validators -/

lemma isValidPrice_iff (p : ℚ) :
    isValidPrice p = true ↔
      0 < p ∧ 1/100 ≤ (jsRound (p * 10 ^ 4) : ℚ) / 10 ^ 4 ∧
        (jsRound (p * 10 ^ 4) : ℚ) / 10 ^ 4 ≤ 1 := by
  unfold isValidPrice sanitizeNumericValue
  rcases lt_trichotomy p 0 with hneg | hzero | hpos
  · rw [if_pos ⟨rfl, hneg⟩]
    simp only [Option.elim_none, Bool.false_eq_true, false_iff, not_and]
    intro h0; exact absurd hneg (not_lt.mpr h0.le)
  · rw [if_neg (by simp [hzero]), if_pos ⟨rfl, hzero⟩]
    simp only [Option.elim_none, Bool.false_eq_true, false_iff, not_and]
    intro h0; exact absurd hzero h0.ne'
  · rw [if_neg (by rintro ⟨-, h⟩; exact absurd hpos (not_lt.mpr h.le)),
      if_neg (by rintro ⟨-, h⟩; exact absurd hpos (by simp [h]))]
    have hden : (((jsRound (p * 10 ^ 4) : ℚ) / 10 ^ 4) * 10 ^ 4).den = 1 := by
      rw [div_mul_cancel₀ _ (by norm_num : (10:ℚ) ^ 4 ≠ 0)]
      exact Rat.den_intCast _
    set s : ℚ := (jsRound (p * 10 ^ 4) : ℚ) / 10 ^ 4 with hs
    rw [Option.elim_some]
    by_cases hlow : s < 1/100
    · simp only [if_pos hlow, Bool.false_eq_true, false_iff, not_and]
      intro _ h; exact absurd hlow (not_lt.mpr h)
    · rw [if_neg hlow]
      by_cases hhigh : 1 < s
      · simp only [if_pos hhigh, Bool.false_eq_true, false_iff, not_and]
        intro _ _ h; exact absurd hhigh (not_lt.mpr h)
      · rw [if_neg hhigh,
          if_neg (fun h => hlow (by rw [h]; norm_num)),
          if_neg (by simp [hden])]
        simp only [eq_self_iff_true, true_iff]
        exact ⟨hpos, not_lt.mp hlow, not_lt.mp hhigh⟩

lemma isValidQuantity_iff (q : ℚ) :
    isValidQuantity q = true ↔ 0 < q ∧ 1 ≤ jsRound q ∧ jsRound q ≤ 10000 := by
  unfold isValidQuantity sanitizeNumericValue
  rcases lt_trichotomy q 0 with hneg | hzero | hpos
  · rw [if_pos ⟨rfl, hneg⟩]
    simp only [Option.elim_none, Bool.false_eq_true, false_iff, not_and]
    intro h0; exact absurd hneg (not_lt.mpr h0.le)
  · rw [if_neg (by simp [hzero]), if_pos ⟨rfl, hzero⟩]
    simp only [Option.elim_none, Bool.false_eq_true, false_iff, not_and]
    intro h0; exact absurd hzero h0.ne'
  · rw [if_neg (by rintro ⟨-, h⟩; exact absurd hpos (not_lt.mpr h.le)),
      if_neg (by rintro ⟨-, h⟩; exact absurd hpos (by simp [h]))]
    have hsimp : q * 10 ^ 0 = q := by norm_num
    rw [hsimp]
    have hcast : ((jsRound q : ℚ) / 10 ^ 0) = (jsRound q : ℚ) := by norm_num
    rw [hcast, Option.elim_some]
    rw [if_neg (by simp [Rat.den_intCast])]
    by_cases hlow : (jsRound q : ℚ) < 1
    · simp only [if_pos hlow, Bool.false_eq_true, false_iff, not_and]
      intro _ h
      exact absurd hlow (not_lt.mpr (by exact_mod_cast h))
    · rw [if_neg hlow]
      by_cases hhigh : (10000 : ℚ) < (jsRound q : ℚ)
      · simp only [if_pos hhigh, Bool.false_eq_true, false_iff, not_and]
        intro _ _ h
        exact absurd hhigh (not_lt.mpr (by exact_mod_cast h))
      · rw [if_neg hhigh, if_neg (by
          intro h
          have h2 : ((2:ℚ) ^ 53 - 1) ≤ 10000 := le_trans h.le (not_lt.mp hhigh)
          norm_num at h2)]
        have h1 : (1:ℤ) ≤ jsRound q := by exact_mod_cast not_lt.mp hlow
        have h2 : jsRound q ≤ 10000 := by exact_mod_cast not_lt.mp hhigh
        simp [hpos, h1, h2]

/-! ### The validity verdict of `validateTicketData` -/

lemma validateTicketData_aux (t : TicketData) :
    ((validateTicketData t).isValid = true ↔
      (t.side = some "YES" ∨ t.side = some "NO") ∧
      (∃ p, t.price = some p ∧ isValidPrice p = true) ∧
      (∃ q, t.quantity = some q ∧ isValidQuantity q = true)) ∧
    (validateTicketData t).validationSummary.canProceed = (validateTicketData t).isValid := by
  obtain ⟨side, price, quantity, fee⟩ := t
  refine ⟨?_, ?_⟩
  · cases side with
    | none => simp [validateTicketData]
    | some s =>
      cases price with
      | none => simp [validateTicketData]
      | some p =>
        cases quantity with
        | none => simp [validateTicketData]
        | some q =>
          by_cases h1 : s = "YES" ∨ s = "NO" <;>
            by_cases h2 : isValidPrice p = true <;>
              by_cases h3 : isValidQuantity q = true <;>
                simp [validateTicketData, h1, h2, h3] <;>
                  split_ifs <;> simp_all
  · simp [validateTicketData]

/-- C5 counterexample: a ticket with side YES, price 0.5 and the non-integer
quantity 2.4 is marked `isValid = true` (the validator rounds 2.4 to 2 before
checking), although 2.4 is not an integer in [1, 10000]. -/
theorem validateTicketData_noninteger_quantity_cex :
    (validateTicketData
      { side := some "YES", price := some (1/2), quantity := some (12/5), fee := none }).isValid
        = true ∧
    ¬ ∃ n : ℤ, ((12:ℚ)/5) = (n : ℚ) := by
  constructor
  · rw [(validateTicketData_aux _).1]
    refine ⟨Or.inl rfl, ⟨1/2, rfl, ?_⟩, ⟨12/5, rfl, ?_⟩⟩
    · norm_num [isValidPrice, sanitizeNumericValue, jsRound, Int.floor_eq_iff]
    · norm_num [isValidQuantity, sanitizeNumericValue, jsRound, Int.floor_eq_iff]
  · rintro ⟨n, hn⟩
    rw [div_eq_iff (by norm_num : (5:ℚ) ≠ 0)] at hn
    have h : (12 : ℤ) = n * 5 := by exact_mod_cast hn
    omega

/-- C5 (amended): `isValid` is true exactly when the side is YES/NO, the
price is present and, after rounding to 4 decimal places, lies in [0.01, 1],
and the quantity is present and, after rounding to the nearest integer, lies
in [1, 10000]; `canProceed` always equals `isValid`, regardless of the fee;
Scenario F (no side, valid price and quantity) yields false for both. -/
theorem validateTicketData_isValid_spec (t : TicketData) :
    ((validateTicketData t).isValid = true ↔
      (t.side = some "YES" ∨ t.side = some "NO") ∧
      (∃ p, t.price = some p ∧ 0 < p ∧
        1/100 ≤ (jsRound (p * 10 ^ 4) : ℚ) / 10 ^ 4 ∧
          (jsRound (p * 10 ^ 4) : ℚ) / 10 ^ 4 ≤ 1) ∧
      (∃ q, t.quantity = some q ∧ 0 < q ∧ 1 ≤ jsRound q ∧ jsRound q ≤ 10000)) ∧
    (validateTicketData t).validationSummary.canProceed = (validateTicketData t).isValid ∧
    (validateTicketData
      { side := none, price := some (1/2), quantity := some 5, fee := none }).isValid = false ∧
    (validateTicketData
      { side := none, price := some (1/2), quantity := some 5,
        fee := none }).validationSummary.canProceed = false := by
  have hF : (validateTicketData
      { side := none, price := some (1/2), quantity := some 5, fee := none }).isValid
        = false := by
    rw [Bool.eq_false_iff]
    intro hb
    obtain ⟨hside, -, -⟩ := (validateTicketData_aux _).1.mp hb
    simp at hside
  refine ⟨?_, (validateTicketData_aux t).2, hF, by rw [(validateTicketData_aux _).2, hF]⟩
  rw [(validateTicketData_aux t).1]
  simp only [isValidPrice_iff, isValidQuantity_iff]

/-- C5 witness: the amended characterization applied to Scenario A-style
concrete data (side YES, price 0.65, quantity 100). -/
theorem validateTicketData_isValid_spec_witness :
    (validateTicketData
      { side := some "YES", price := some (13/20), quantity := some 100, fee := none }).isValid
        = true := by
  refine (validateTicketData_isValid_spec _).1.mpr
    ⟨Or.inl rfl, ⟨13/20, rfl, by norm_num, ?_, ?_⟩, ⟨100, rfl, by norm_num, ?_, ?_⟩⟩ <;>
    norm_num [jsRound, Int.floor_eq_iff]

/-! ### C8: the fee-consistency warning -/

/-- C8: when totalFee, perContractFee and quantity are all present and
|totalFee − perContractFee·quantity| > 0.01, `validateTicketData` records the
inconsistency message and counts at least one warning, and a valid
side/price/quantity still yields `isValid = true` and `canProceed = true`. -/
theorem validateTicketData_feeMismatch_warning (t : TicketData) (f : FeeInfo) (tf pf q : ℚ)
    (hf : t.fee = some f) (htf : f.totalFee = some tf) (hpf : f.perContractFee = some pf)
    (hq : t.quantity = some q) (hmis : |tf - pf * q| > 1/100) :
    VErr.feeInconsistency ∈ (validateTicketData t).errors ∧
    1 ≤ (validateTicketData t).validationSummary.warningCount ∧
    ((t.side = some "YES" ∨ t.side = some "NO") →
      (∃ p, t.price = some p ∧ isValidPrice p = true) → isValidQuantity q = true →
      (validateTicketData t).isValid = true ∧
      (validateTicketData t).validationSummary.canProceed = true) := by
  obtain ⟨side, price, quantity, fee⟩ := t
  obtain ⟨ftot, fper, fsrc⟩ := f
  simp only at hf htf hpf hq
  subst hf htf hpf hq
  have hmis2 : (100:ℚ)⁻¹ < |tf - pf * q| := by rw [← one_div]; exact hmis
  refine ⟨?_, ?_, ?_⟩
  · simp [validateTicketData, hmis, hmis2]
  · simp [validateTicketData, hmis, hmis2]
    omega
  · intro hside hprice hqv
    have hiv : (validateTicketData
        { side := side, price := price, quantity := some q,
          fee := some { totalFee := some tf, perContractFee := some pf, feeSource := fsrc } }).isValid = true :=
      (validateTicketData_aux _).1.mpr ⟨hside, hprice, ⟨q, rfl, hqv⟩⟩
    exact ⟨hiv, by rw [(validateTicketData_aux _).2]; exact hiv⟩

/-- C8 witness: totalFee 1, perContractFee 0.01, quantity 10
(mismatch 0.9 > 0.01) with valid YES/0.5/10 core fields. -/
theorem validateTicketData_feeMismatch_warning_witness :
    VErr.feeInconsistency ∈ (validateTicketData
      { side := some "YES", price := some (1/2), quantity := some 10,
        fee := some { totalFee := some 1, perContractFee := some (1/100) } }).errors ∧
    (validateTicketData
      { side := some "YES", price := some (1/2), quantity := some 10,
        fee := some { totalFee := some 1, perContractFee := some (1/100) } }).isValid = true := by
  have h := validateTicketData_feeMismatch_warning
    { side := some "YES", price := some (1/2), quantity := some 10,
      fee := some { totalFee := some 1, perContractFee := some (1/100) } }
    { totalFee := some 1, perContractFee := some (1/100) } 1 (1/100) 10
    rfl rfl rfl rfl (by norm_num [lt_abs])
  refine ⟨h.1, (h.2.2 (Or.inl rfl) ⟨1/2, rfl, ?_⟩ ?_).1⟩
  · norm_num [isValidPrice, sanitizeNumericValue, jsRound, Int.floor_eq_iff]
  · norm_num [isValidQuantity, sanitizeNumericValue, jsRound, Int.floor_eq_iff]

end Kalshi

namespace Kalshi

/-! ### C6: the odds round trip -/

/-- C6 counterexample: at odds −100 (magnitude ≥ 100) the round trip
returns +100, which differs from −100 by 200 > 1. -/
theorem roundTripOdds_neg100_cex :
    roundTripOdds (-100) = some 100 ∧ ¬(|(100 : ℤ) - (-100)| ≤ 1) := by
  constructor
  · norm_num [roundTripOdds, americanOddsToProbability, probabilityToAmericanOdds,
      jsRound, Int.floor_eq_iff, abs_sub_lt_iff, le_abs, abs_lt]
  · decide

/-- C6 (amended): for every integer o with o ≥ 100 or o ≤ −101, the round
trip `probabilityToAmericanOdds ∘ americanOddsToProbability` returns exactly
o (in particular within ±1); o = −100 is the single exception, mapping to
even odds +100. -/
theorem roundTripOdds_exact (o : ℤ) (h : 100 ≤ o ∨ o ≤ -101) :
    roundTripOdds (o : ℚ) = some o := by
  rcases h with h | h
  · have hq : (100:ℚ) ≤ (o:ℚ) := by exact_mod_cast h
    have hpos : (0:ℚ) < (o:ℚ) := by linarith
    have hden : (0:ℚ) < (o:ℚ) + 100 := by linarith
    unfold roundTripOdds americanOddsToProbability
    rw [if_neg (ne_of_gt hpos), if_pos hpos]
    rw [Option.some_bind]
    rcases eq_or_lt_of_le h with h100 | h101
    · rw [← h100]
      norm_num [probabilityToAmericanOdds, jsRound, Int.floor_eq_iff, abs_sub_lt_iff]
    · have h101' : (101:ℤ) ≤ o := h101
      have hq101 : (101:ℚ) ≤ (o:ℚ) := by exact_mod_cast h101'
      set p : ℚ := 100 / ((o:ℚ) + 100) with hp
      have hp_pos : 0 < p := div_pos (by norm_num) hden
      have hp_lt : p < 1/2 := by rw [hp, div_lt_iff₀ hden]; linarith
      have hp_le : p ≤ 499/1000 := by rw [hp, div_le_iff₀ hden]; linarith
      have htol : ¬(|p - 1/2| < 1/1000) := by
        intro habs
        rw [abs_lt] at habs
        linarith [habs.1]
      unfold probabilityToAmericanOdds
      rw [if_neg (by push_neg; exact ⟨hp_pos, by linarith⟩), if_neg htol, if_pos hp_lt]
      have hval : 100 * (1 - p) / p = (o:ℚ) := by
        rw [hp]
        field_simp
      rw [hval, jsRound_intCast]
  · have hq : ((o:ℚ)) ≤ -101 := by exact_mod_cast h
    have hneg : (o:ℚ) < 0 := by linarith
    unfold roundTripOdds americanOddsToProbability
    rw [if_neg (ne_of_lt hneg), if_neg (not_lt.mpr hneg.le)]
    rw [Option.some_bind]
    have habs : |(o:ℚ)| = -(o:ℚ) := abs_of_neg hneg
    rw [habs]
    have hb101 : (101:ℚ) ≤ -(o:ℚ) := by linarith
    have hbden : (0:ℚ) < -(o:ℚ) + 100 := by linarith
    set p : ℚ := -(o:ℚ) / (-(o:ℚ) + 100) with hp
    have hp_pos : 0 < p := div_pos (by linarith) hbden
    have hp_lt1 : p < 1 := by rw [hp, div_lt_one hbden]; linarith
    have hp_ge : 501/1000 ≤ p := by rw [hp, le_div_iff₀ hbden]; linarith
    have htol : ¬(|p - 1/2| < 1/1000) := by
      intro habs2
      rw [abs_lt] at habs2
      linarith [habs2.2]
    unfold probabilityToAmericanOdds
    rw [if_neg (by push_neg; exact ⟨hp_pos, hp_lt1⟩), if_neg htol,
      if_neg (not_lt.mpr (by linarith : (1:ℚ)/2 ≤ p))]
    have hne : -(o:ℚ) + 100 ≠ 0 := ne_of_gt hbden
    have h1p : (1:ℚ) - p = 100 / (-(o:ℚ) + 100) := by
      rw [hp]
      field_simp
    have hval : -100 * p / (1 - p) = (o:ℚ) := by
      rw [h1p, hp]
      field_simp
    rw [hval, jsRound_intCast]

/-- C6 witness: the amended round trip at o = 150 and o = −150. -/
theorem roundTripOdds_exact_witness :
    roundTripOdds ((150:ℤ) : ℚ) = some 150 ∧ roundTripOdds ((-150:ℤ) : ℚ) = some (-150) :=
  ⟨roundTripOdds_exact 150 (Or.inl (by norm_num)),
   roundTripOdds_exact (-150) (Or.inr (by norm_num))⟩

end Kalshi

namespace Kalshi

/-! ### C7: monotonicity of `probabilityToAmericanOdds` -/

lemma probToOdds_lo (p : ℚ) (h0 : 0 < p) (h : p ≤ 499/1000) :
    probabilityToAmericanOdds p = some (jsRound (100 * (1 - p) / p)) := by
  unfold probabilityToAmericanOdds
  rw [if_neg (by push_neg; exact ⟨h0, by linarith⟩),
    if_neg (by intro habs; rw [abs_lt] at habs; linarith [habs.1]),
    if_pos (by linarith)]

lemma probToOdds_mid (p : ℚ) (h1 : 499/1000 < p) (h2 : p < 501/1000) :
    probabilityToAmericanOdds p = some 100 := by
  have h100 : jsRound (100:ℚ) = 100 := by exact_mod_cast jsRound_intCast 100
  unfold probabilityToAmericanOdds
  rw [if_neg (by push_neg; constructor <;> linarith),
    if_pos (by rw [abs_lt]; constructor <;> linarith), h100]

lemma probToOdds_hi (p : ℚ) (h : 501/1000 ≤ p) (h1 : p < 1) :
    probabilityToAmericanOdds p = some (jsRound (-100 * p / (1 - p))) := by
  unfold probabilityToAmericanOdds
  rw [if_neg (by push_neg; exact ⟨by linarith, h1⟩),
    if_neg (by intro habs; rw [abs_lt] at habs; linarith [habs.2]),
    if_neg (by push_neg; linarith)]

lemma lo_value_antitone (p1 p2 : ℚ) (h0 : 0 < p1) (h : p1 ≤ p2) :
    100 * (1 - p2) / p2 ≤ 100 * (1 - p1) / p1 := by
  have h02 : 0 < p2 := lt_of_lt_of_le h0 h
  rw [div_le_div_iff₀ h02 h0]
  nlinarith

lemma hi_value_antitone (p1 p2 : ℚ) (h : p1 ≤ p2) (h2 : p2 < 1) :
    -100 * p2 / (1 - p2) ≤ -100 * p1 / (1 - p1) := by
  have h11 : 0 < 1 - p1 := by linarith
  have h12 : 0 < 1 - p2 := by linarith
  rw [div_le_div_iff₀ h12 h11]
  nlinarith

lemma lo_round_ge_100 (p : ℚ) (h0 : 0 < p) (h : p ≤ 499/1000) :
    (100:ℤ) ≤ jsRound (100 * (1 - p) / p) := by
  have hv := lo_value_antitone p (499/1000) h0 h
  calc (100:ℤ) = jsRound (100 * (1 - 499/1000) / (499/1000)) := by
        norm_num [jsRound, Int.floor_eq_iff]
    _ ≤ jsRound (100 * (1 - p) / p) := jsRound_mono hv

lemma hi_round_le_neg100 (p : ℚ) (h : 501/1000 ≤ p) (h1 : p < 1) :
    jsRound (-100 * p / (1 - p)) ≤ -100 := by
  have hv := hi_value_antitone (501/1000) p h h1
  calc jsRound (-100 * p / (1 - p)) ≤ jsRound (-100 * (501/1000) / (1 - 501/1000)) :=
        jsRound_mono hv
    _ = -100 := by norm_num [jsRound, Int.floor_eq_iff]

/-- C7: over (0,1) the signed odds value of `probabilityToAmericanOdds` is
monotonically non-increasing in p, and the value at p = 0.5 is +100. -/
theorem probabilityToAmericanOdds_antitone (p1 p2 : ℚ)
    (h0 : 0 < p1) (h12 : p1 ≤ p2) (h1 : p2 < 1) :
    (∃ o1 o2 : ℤ, probabilityToAmericanOdds p1 = some o1 ∧
      probabilityToAmericanOdds p2 = some o2 ∧ o2 ≤ o1) ∧
    probabilityToAmericanOdds (1/2) = some 100 := by
  constructor
  · rcases le_or_lt p1 (499/1000) with ha | ha
    · rcases le_or_lt p2 (499/1000) with hb | hb
      · exact ⟨_, _, probToOdds_lo p1 h0 ha, probToOdds_lo p2 (by linarith) hb,
          jsRound_mono (lo_value_antitone p1 p2 h0 h12)⟩
      · rcases lt_or_le p2 (501/1000) with hc | hc
        · exact ⟨_, _, probToOdds_lo p1 h0 ha, probToOdds_mid p2 hb hc,
            lo_round_ge_100 p1 h0 ha⟩
        · exact ⟨_, _, probToOdds_lo p1 h0 ha, probToOdds_hi p2 hc h1,
            le_trans (hi_round_le_neg100 p2 hc h1)
              (le_trans (by norm_num) (lo_round_ge_100 p1 h0 ha))⟩
    · rcases lt_or_le p1 (501/1000) with hb | hb
      · rcases lt_or_le p2 (501/1000) with hc | hc
        · exact ⟨100, 100, probToOdds_mid p1 ha hb, probToOdds_mid p2 (by linarith) hc,
            le_refl 100⟩
        · exact ⟨100, _, probToOdds_mid p1 ha hb, probToOdds_hi p2 hc h1,
            le_trans (hi_round_le_neg100 p2 hc h1) (by norm_num)⟩
      · have hc : 501/1000 ≤ p2 := le_trans hb h12
        exact ⟨_, _, probToOdds_hi p1 hb (by linarith), probToOdds_hi p2 hc h1,
          jsRound_mono (hi_value_antitone p1 p2 h12 h1)⟩
  · exact probToOdds_mid (1/2) (by norm_num) (by norm_num)

/-- C7 witness: p1 = 0.3 and p2 = 0.7. -/
theorem probabilityToAmericanOdds_antitone_witness :
    (∃ o1 o2 : ℤ, probabilityToAmericanOdds (3/10) = some o1 ∧
      probabilityToAmericanOdds (7/10) = some o2 ∧ o2 ≤ o1) ∧
    probabilityToAmericanOdds (1/2) = some 100 :=
  probabilityToAmericanOdds_antitone (3/10) (7/10) (by norm_num) (by norm_num) (by norm_num)

end Kalshi

namespace Kalshi

/-! ### C9: the default-quantity fallback -/

/-- C9: the final quantity fallback never reports "no result" — it returns
the default 1 even on a subtree with no inputs and no other valid fields,
contrary to its own comment ("if we have other valid ticket data") and to the
spec; the side-and-price gate exists only in recovery strategy 4. -/
theorem parseQuantityFallback3_total :
    (∀ el : QtyTicketEl, (parseQuantityFallback3 el).isSome = true) ∧
    parseQuantityFallback3 { inputs := [] } = some 1 ∧
    parseQuantityFallback3 { inputs := [{ placeholder := "abc" }] } = some 1 ∧
    (∀ price : ℚ, recoveryDefaultQuantity none (some price) none = none ∧
      recoveryDefaultQuantity (some "YES") (some price) none = some 1) := by
  refine ⟨?_, rfl, rfl, fun price => ⟨rfl, rfl⟩⟩
  intro el
  obtain ⟨inputs⟩ := el
  show (parseQuantityFallback3Loop inputs).isSome = true
  induction inputs with
  | nil => rfl
  | cons i rest ih =>
    rw [parseQuantityFallback3Loop]
    split
    · rfl
    · split
      · rfl
      · exact ih

end Kalshi

namespace Kalshi

/-! ### C10: the content hash of the ticket lifecycle -/

lemma controlsFold_eq (l : List DomControl) (acc : String) :
    l.foldl (fun a c => if isHashedControl c then a ++ controlKey c ++ ":" ++ c.value ++ "|"
      else a) acc =
    ((l.filter isHashedControl).map (fun c => (controlKey c, c.value))).foldl
      (fun a kv => a ++ kv.1 ++ ":" ++ kv.2 ++ "|") acc := by
  induction l generalizing acc with
  | nil => rfl
  | cons c rest ih =>
    by_cases h : isHashedControl c = true
    · simp [List.filter_cons, h, ih]
    · simp [List.filter_cons, h, ih, Bool.eq_false_iff.mpr h]

lemma buttonsFold_eq (l : List DomButton) (acc : String) :
    l.foldl (fun a b => a ++ "btn:" ++ b.text.trim ++ "|") acc =
    (l.map (fun b => b.text.trim)).foldl (fun a t => a ++ "btn:" ++ t ++ "|") acc := by
  induction l generalizing acc with
  | nil => rfl
  | cons b rest ih => simp [ih]

lemma generateTicketHash_features (e : TicketEl) :
    generateTicketHash e =
      hashString ((visibleControlEntries e).foldl (fun a kv => a ++ kv.1 ++ ":" ++ kv.2 ++ "|") ""
        ++ (selectedButtonTexts e).foldl (fun a t => a ++ "btn:" ++ t ++ "|") ""
        ++ hashTextPart e) := by
  unfold generateTicketHash visibleControlEntries selectedButtonTexts hashTextPart
  rw [controlsFold_eq, buttonsFold_eq]

/-- C10: two ticket subtrees agreeing on the name/id and value of every
non-hidden control, on the trimmed text of every selected button, and on the
first 500 characters of the trimmed text content hash identically, so a
change confined to visible text beyond the first 500 characters never
triggers the OPEN→OPEN re-parse. -/
theorem generateTicketHash_determined (e1 e2 : TicketEl)
    (hc : visibleControlEntries e1 = visibleControlEntries e2)
    (hb : selectedButtonTexts e1 = selectedButtonTexts e2)
    (ht : hashTextPart e1 = hashTextPart e2) :
    generateTicketHash e1 = generateTicketHash e2 ∧
    ticketContentChanged (generateTicketHash e1) e2 = false := by
  have h : generateTicketHash e1 = generateTicketHash e2 := by
    rw [generateTicketHash_features, generateTicketHash_features, hc, hb, ht]
  exact ⟨h, by simp [ticketContentChanged, h]⟩

/-- C10 witness: two subtrees that differ only in a hidden input's value and
in text past the truncation point hash identically and cause no re-parse. -/
theorem generateTicketHash_determined_witness :
    generateTicketHash
        { controls := [{ type := "hidden", name := "h", value := "a" }], buttons := [], textContent := "Order" } =
      generateTicketHash
        { controls := [{ type := "hidden", name := "h", value := "b" }], buttons := [], textContent := "Order" } ∧
    ticketContentChanged
      (generateTicketHash
        { controls := [{ type := "hidden", name := "h", value := "a" }], buttons := [], textContent := "Order" })
      { controls := [{ type := "hidden", name := "h", value := "b" }], buttons := [], textContent := "Order" }
        = false :=
  generateTicketHash_determined _ _ rfl rfl rfl

end Kalshi
